import Mathlib

/-!
Verification of TBDBpy (`tbdb/__init__.py`), a Python client for TalkBankDB.

The embedding models Python values by the inductive type `PyVal`, Python
dicts by ordered association lists (`Dict`), the request-building function
`_makeReq` by `makeQuery`/`makeReq` (the outbound HTTP POST is represented
by the `HttpPost` it would issue; a raised `KeyError` is an `Except.error`
produced before any `HttpPost` exists), the interactive credential loop
`_authenticate` by `authenticate` over an explicit input stream, and the
recursive path check `validPath`/`checkPath` over an explicit `PathTree`.
-/

namespace TBDB

/-- Python values as transmitted by the client: strings, integers, lists,
dicts (ordered key/value lists, as Python dicts preserve insertion order),
and `None`. -/
inductive PyVal where
  | none : PyVal
  | str : String → PyVal
  | int : Int → PyVal
  | list : List PyVal → PyVal
  | dict : List (String × PyVal) → PyVal

/-- A Python dict: an insertion-ordered association list. -/
abbrev Dict := List (String × PyVal)

/-- Key lookup in a dict, modelling both `d[k]` (when it succeeds) and
`k in d` (membership). Returns the value at the first matching key. -/
def lookup : Dict → String → Option PyVal
  | [], _ => Option.none
  | (k', v) :: rest, k => if k' = k then some v else lookup rest k

/-- Python `k in d`. -/
def hasKey (d : Dict) (k : String) : Bool :=
  (lookup d k).isSome

/-- Models the expression `queryParams[k] if k in queryParams else {}`
used for every optional field in `_makeReq`. -/
def getDefault (qp : Dict) (k : String) : PyVal :=
  match lookup qp k with
  | some v => v
  | Option.none => PyVal.dict []

/-- The optional query keys of `_makeReq`, in the order the dict literal
lists them. -/
def optionalKeys : List String :=
  ["corpora", "lang", "media", "age", "gender", "designType",
   "activityType", "groupType", "cqlArr", "nGram"]

/-- The dict literal of `_makeReq` (lines 38-51): `corpusName` copied
verbatim (`c` is `queryParams['corpusName']`), each optional key defaulted
to `{}` when absent, and `respType` fixed to the string "JSON". -/
def baseQuery (qp : Dict) (c : PyVal) : Dict :=
  [("corpusName", c),
   ("corpora", getDefault qp "corpora"),
   ("lang", getDefault qp "lang"),
   ("media", getDefault qp "media"),
   ("age", getDefault qp "age"),
   ("gender", getDefault qp "gender"),
   ("designType", getDefault qp "designType"),
   ("activityType", getDefault qp "activityType"),
   ("groupType", getDefault qp "groupType"),
   ("cqlArr", getDefault qp "cqlArr"),
   ("nGram", getDefault qp "nGram"),
   ("respType", PyVal.str "JSON")]

/-- The envelope construction of `_makeReq` for a data query (`DB_query`
true): evaluating `queryParams['corpusName']` raises `KeyError` when the
key is absent (modelled as `Except.error`); otherwise the dict literal is
built and, when the caller supplied `nsAuth`, that entry is appended
(`query['nsAuth'] = queryParams['nsAuth']`). -/
def makeQuery (qp : Dict) : Except String Dict :=
  match lookup qp "corpusName" with
  | Option.none => Except.error "KeyError: corpusName"
  | some c =>
      match lookup qp "nsAuth" with
      | some a => Except.ok (baseQuery qp c ++ [("nsAuth", a)])
      | Option.none => Except.ok (baseQuery qp c)

/-- One outbound HTTP POST: the URL and the JSON body that
`requests.post(URL, json=...)` would transmit. -/
structure HttpPost where
  url : String
  body : PyVal

/-- The fixed server base URL of `_makeReq`. -/
def baseURL : String := "https://sla2.talkbank.org:1515/"

/-- `_makeReq(queryParams, route, DB_query)` up to the HTTP boundary: it
either raises (the `Except.error` case, in which no `HttpPost` is ever
constructed, since the dict literal is evaluated strictly before
`requests.post`) or performs exactly the returned `HttpPost`. A data query
posts `{'queryVals': query}`; a metadata query posts `{}`. -/
def makeReq (qp : Dict) (route : String) (dbQuery : Bool) : Except String HttpPost :=
  if dbQuery then
    match makeQuery qp with
    | Except.error e => Except.error e
    | Except.ok query =>
        Except.ok ⟨baseURL ++ route, PyVal.dict [("queryVals", PyVal.dict query)]⟩
  else
    Except.ok ⟨baseURL ++ route, PyVal.dict []⟩

/-- Python dict assignment `d[k] = v`: replaces the value at `k` keeping
its position when `k` is present, else appends the new entry at the end. -/
def dictSet : Dict → String → PyVal → Dict
  | [], k, v => [(k, v)]
  | (k', v') :: rest, k, v =>
      if k' = k then (k, v) :: rest else (k', v') :: dictSet rest k v

/-- The `if auth: queryParams['nsAuth'] = _authenticate()` prologue shared
by every public query function; `creds` stands for the value returned by
`_authenticate()`. Returns the caller's mapping as it is left after the
call. -/
def applyAuth (qp : Dict) (auth : Bool) (creds : PyVal) : Dict :=
  if auth then dictSet qp "nsAuth" creds else qp

/-- `getTranscripts(queryParams, auth)`: the pair of the caller's mapping
after the call (mutated in place in Python, hence returned explicitly
here) and the request made via `_makeReq(queryParams, 'getTranscriptSummary', True)`. -/
def getTranscripts (qp : Dict) (auth : Bool) (creds : PyVal) :
    Dict × Except String HttpPost :=
  let qp' := applyAuth qp auth creds
  (qp', makeReq qp' "getTranscriptSummary" true)

/-- `getCQL(queryParams, auth)`: same shape as `getTranscripts`, routed to
`'cql'`. -/
def getCQL (qp : Dict) (auth : Bool) (creds : PyVal) :
    Dict × Except String HttpPost :=
  let qp' := applyAuth qp auth creds
  (qp', makeReq qp' "cql" true)

/-- One credential record as `_authenticate` appends it (line 74):
`{'path': path, 'userID': user_id, 'pswd': password}`. -/
def credRecord (path uid pwd : String) : Dict :=
  [("path", PyVal.str path), ("userID", PyVal.str uid), ("pswd", PyVal.str pwd)]

/-- Python's `str.lower()` on an answer string: each character lowercased
(the interactive answers involved are ASCII, where `Char.toLower` agrees
with Python). Defined over the character list so that it evaluates on
literals. -/
def pyLower (s : String) : String :=
  ⟨s.data.map Char.toLower⟩

/-- The three possible outcomes of a run of `_authenticate` over a finite
input stream: an explicit `return authReqs`, falling off the end of the
function (Python returns `None`), or running out of input (`input()` would
raise `EOFError`). -/
inductive AuthResult where
  | returns : List Dict → AuthResult
  | returnsNone : AuthResult
  | inputExhausted : AuthResult

/-- The `while another == 'y'` loop body of `_authenticate`: each
iteration consumes four inputs (path, user ID, password, continuation
answer), appends a record, returns the accumulated list when the answer
lowercased differs from "y", re-enters the loop when the answer is exactly
"y", and otherwise (answer "Y") fails the `while` test and falls off the
end of the function. -/
def authLoop : List String → List Dict → AuthResult
  | path :: uid :: pwd :: another :: rest, acc =>
      let acc' := acc ++ [credRecord path uid pwd]
      if pyLower another ≠ "y" then AuthResult.returns acc'
      else if another = "y" then authLoop rest acc'
      else AuthResult.returnsNone
  | _, _ => AuthResult.inputExhausted

/-- `_authenticate()` run against the given stream of interactive inputs:
`authReqs` starts empty and `another` starts as "y", so the loop body runs
at least once. -/
def authenticate (inputs : List String) : AuthResult :=
  authLoop inputs []

/-- A fetched path tree: a recursively nested mapping from path-segment
strings to child trees. -/
inductive PathTree where
  | node : List (String × PathTree) → PathTree

/-- Key lookup among the children of a path-tree node, modelling both
`targetPath[0] in pathTree` and `pathTree[targetPath[0]]`. -/
def lookupTree : List (String × PathTree) → String → Option PathTree
  | [], _ => Option.none
  | (k', t) :: rest, k => if k' = k then some t else lookupTree rest k

/-- What a run of `checkPath` evaluates to: `True`, `False`, or `None`
(Python's implicit return value when control falls off the end of the
function). -/
inductive CheckResult where
  | isTrue : CheckResult
  | isFalse : CheckResult
  | isNone : CheckResult
deriving DecidableEq

/-- The inner `checkPath(targetPath, pathTree)` of `validPath` (lines
657-667): an empty remaining path returns `True`; when the next segment is
a key of the current subtree the function recurses but DISCARDS the result
(the `let` binding below) and falls off the end, returning `None`; when
the segment is absent it prints the segment and returns `False`. -/
def checkPath : List String → PathTree → CheckResult
  | [], _ => CheckResult.isTrue
  | s :: rest, PathTree.node children =>
      match lookupTree children s with
      | some sub =>
          let _ := checkPath rest sub
          CheckResult.isNone
      | Option.none => CheckResult.isFalse

/-- `validPath(targetPath)` applied to the tree fetched by
`getPathTrees()`: it calls `checkPath(['respMsg'] + targetPath, tree)`. -/
def validPath (targetPath : List String) (pathTree : PathTree) : CheckResult :=
  checkPath ("respMsg" :: targetPath) pathTree

/-- A concrete fetched tree containing the nested chain
childes/childes/Clinical under the `respMsg` envelope key, as in the
docstring examples of `validPath`. -/
def exampleTree : PathTree :=
  PathTree.node
    [("respMsg", PathTree.node
      [("childes", PathTree.node
        [("childes", PathTree.node
          [("Clinical", PathTree.node [])])])])]

theorem lookup_append (xs ys : Dict) (k : String) :
    lookup (xs ++ ys) k =
      match lookup xs k with
      | some v => some v
      | Option.none => lookup ys k := by
  induction xs with
  | nil => rfl
  | cons p rest ih =>
      obtain ⟨k', v'⟩ := p
      by_cases hk : k' = k <;> simp [lookup, hk, ih]

theorem lookup_append_left (xs ys : Dict) (k : String) (v : PyVal)
    (h : lookup xs k = some v) : lookup (xs ++ ys) k = some v := by
  rw [lookup_append, h]

theorem lookup_append_right (xs ys : Dict) (k : String)
    (h : lookup xs k = Option.none) : lookup (xs ++ ys) k = lookup ys k := by
  rw [lookup_append, h]

theorem lookup_eq_none (d : Dict) (k : String) :
    lookup d k = Option.none ↔ k ∉ d.map Prod.fst := by
  induction d with
  | nil => simp [lookup]
  | cons p rest ih =>
      obtain ⟨k', v'⟩ := p
      by_cases hk : k' = k
      · subst hk
        simp [lookup]
      · simp [lookup, hk, ih, Ne.symm hk]

theorem lookup_dictSet_self (d : Dict) (k : String) (v : PyVal) :
    lookup (dictSet d k v) k = some v := by
  induction d with
  | nil => simp [dictSet, lookup]
  | cons p rest ih =>
      obtain ⟨k', v'⟩ := p
      by_cases hk : k' = k <;> simp [dictSet, lookup, hk, ih]

theorem lookup_dictSet_ne (d : Dict) (k k' : String) (v : PyVal)
    (h : k' ≠ k) : lookup (dictSet d k v) k' = lookup d k' := by
  have hkk : ¬k = k' := fun e => h (Eq.symm e)
  induction d with
  | nil => simp [dictSet, lookup, hkk]
  | cons p rest ih =>
      obtain ⟨k₀, v₀⟩ := p
      by_cases hk : k₀ = k
      · subst hk
        simp [dictSet, lookup, hkk]
      · by_cases hk' : k₀ = k'
        · subst hk'
          simp [dictSet, lookup, hk]
        · simp [dictSet, lookup, hk, hk', ih]

theorem lookup_baseQuery_corpusName (qp : Dict) (c : PyVal) :
    lookup (baseQuery qp c) "corpusName" = some c := rfl

theorem lookup_baseQuery_respType (qp : Dict) (c : PyVal) :
    lookup (baseQuery qp c) "respType" = some (PyVal.str "JSON") := rfl

theorem lookup_baseQuery_nsAuth (qp : Dict) (c : PyVal) :
    lookup (baseQuery qp c) "nsAuth" = Option.none := rfl

theorem lookup_baseQuery_optional (qp : Dict) (c : PyVal) (k : String)
    (h : k ∈ optionalKeys) :
    lookup (baseQuery qp c) k = some (getDefault qp k) := by
  fin_cases h <;> rfl

theorem map_fst_baseQuery (qp : Dict) (c : PyVal) :
    (baseQuery qp c).map Prod.fst =
      ["corpusName", "corpora", "lang", "media", "age", "gender", "designType",
       "activityType", "groupType", "cqlArr", "nGram", "respType"] := rfl

theorem makeQuery_eq_ok (qp : Dict) (c : PyVal)
    (h : lookup qp "corpusName" = some c) :
    makeQuery qp = Except.ok (baseQuery qp c ++
      (match lookup qp "nsAuth" with
       | some a => [("nsAuth", a)]
       | Option.none => [])) := by
  cases hns : lookup qp "nsAuth" <;> simp [makeQuery, h, hns]

theorem baseQuery_stable (qp qp' : Dict) (c : PyVal)
    (h : ∀ k ∈ optionalKeys, lookup qp' k = some (getDefault qp k)) :
    baseQuery qp' c = baseQuery qp c := by
  have g : ∀ k ∈ optionalKeys, getDefault qp' k = getDefault qp k := by
    intro k hk
    rw [getDefault, h k hk]
  simp only [baseQuery, g "corpora" (by decide), g "lang" (by decide),
    g "media" (by decide), g "age" (by decide), g "gender" (by decide),
    g "designType" (by decide), g "activityType" (by decide),
    g "groupType" (by decide), g "cqlArr" (by decide), g "nGram" (by decide)]

theorem credRecord_closure (acc : List Dict) (path uid pwd : String)
    (hacc : ∀ r ∈ acc, ∃ p u w, r = credRecord p u w) :
    ∀ r ∈ acc ++ [credRecord path uid pwd], ∃ p u w, r = credRecord p u w := by
  intro r hr
  rcases List.mem_append.1 hr with hl | hl
  · exact hacc r hl
  · rcases List.mem_singleton.1 hl with rfl
    exact ⟨path, uid, pwd, rfl⟩

theorem authLoop_records :
    ∀ (inputs : List String) (acc recs : List Dict),
      (∀ r ∈ acc, ∃ p u w, r = credRecord p u w) →
      authLoop inputs acc = AuthResult.returns recs →
      ∀ r ∈ recs, ∃ p u w, r = credRecord p u w := by
  intro inputs acc
  induction inputs, acc using authLoop.induct with
  | case1 path uid pwd another rest acc h1 =>
      intro recs hacc h
      simp only [authLoop] at h
      rw [if_pos h1] at h
      cases h
      exact credRecord_closure acc path uid pwd hacc
  | case2 path uid pwd rest acc acc' hcond ih =>
      intro recs hacc h
      simp only [authLoop] at h
      rw [if_neg hcond] at h
      simp only [if_true] at h
      exact ih recs (credRecord_closure acc path uid pwd hacc) h
  | case3 path uid pwd another rest acc h1 h2 =>
      intro recs hacc h
      simp only [authLoop] at h
      rw [if_neg h1, if_neg h2] at h
      cases h
  | case4 t x hshape =>
      intro recs hacc h
      rcases t with _ | ⟨a, _ | ⟨b, _ | ⟨c, _ | ⟨d, rest⟩⟩⟩⟩
      · simp [authLoop] at h
      · simp [authLoop] at h
      · simp [authLoop] at h
      · simp [authLoop] at h
      · exact absurd rfl (hshape a b c d rest)

/-- Claim C1 (code bug): the docstring of `validPath` promises `True` for
the nested chain childes/childes/Clinical and `False` for
childes/childes/doesNotExist, but against a fetched tree containing the
chain the code returns `None` in both cases: the first segment `respMsg`
is present, so the recursive result is discarded and the call falls
through without returning. -/
theorem validPath_docstringExamples_returnNone :
    validPath ["childes", "childes", "Clinical"] exampleTree = CheckResult.isNone
    ∧ validPath ["childes", "childes", "doesNotExist"] exampleTree
        = CheckResult.isNone :=
  ⟨rfl, rfl⟩

/-- Claim C2: in the recursive step of `checkPath`, whenever the next
segment is a key of the current subtree the recursive call's result is
computed but discarded, and the call returns `None` (never a boolean) on
that branch. -/
theorem checkPath_presentSegment_returnsNone (s : String) (rest : List String)
    (children : List (String × PathTree)) (sub : PathTree)
    (h : lookupTree children s = some sub) :
    checkPath (s :: rest) (PathTree.node children) = CheckResult.isNone := by
  simp [checkPath, h]

/-- Witness for C2: a concrete one-child tree whose root segment is
present. -/
theorem checkPath_presentSegment_returnsNone_witness :
    checkPath ["childes", "foo"] (PathTree.node [("childes", PathTree.node [])])
      = CheckResult.isNone :=
  checkPath_presentSegment_returnsNone "childes" ["foo"]
    [("childes", PathTree.node [])] (PathTree.node []) rfl

/-- Claim C3: for every mapping containing `corpusName`, the normalized
envelope holds every optional key — the supplied value verbatim when
present, the empty container `{}` when omitted — and `respType` is the
string "JSON" regardless of any caller-supplied `respType`. -/
theorem makeQuery_defaults (qp : Dict) (c : PyVal)
    (h : lookup qp "corpusName" = some c) :
    ∃ env, makeQuery qp = Except.ok env ∧
      lookup env "corpusName" = some c ∧
      lookup env "respType" = some (PyVal.str "JSON") ∧
      ∀ k ∈ optionalKeys,
        (∀ v, lookup qp k = some v → lookup env k = some v) ∧
        (lookup qp k = Option.none → lookup env k = some (PyVal.dict [])) := by
  refine ⟨_, makeQuery_eq_ok qp c h, ?_, ?_, ?_⟩
  · exact lookup_append_left _ _ _ _ (lookup_baseQuery_corpusName qp c)
  · exact lookup_append_left _ _ _ _ (lookup_baseQuery_respType qp c)
  · intro k hk
    have henv := lookup_append_left (baseQuery qp c)
      (match lookup qp "nsAuth" with
       | some a => [("nsAuth", a)]
       | Option.none => []) k _ (lookup_baseQuery_optional qp c k hk)
    constructor
    · intro v hv
      rw [henv]
      simp [getDefault, hv]
    · intro hv
      rw [henv]
      simp [getDefault, hv]

/-- Witness for C3: a caller supplying `corpusName` and a bogus `respType`
of "XML"; the envelope keeps every default and forces `respType` to
"JSON". -/
theorem makeQuery_defaults_witness :
    ∃ env, makeQuery [("corpusName", PyVal.str "childes"),
        ("respType", PyVal.str "XML")] = Except.ok env ∧
      lookup env "corpusName" = some (PyVal.str "childes") ∧
      lookup env "respType" = some (PyVal.str "JSON") ∧
      ∀ k ∈ optionalKeys,
        (∀ v, lookup [("corpusName", PyVal.str "childes"),
            ("respType", PyVal.str "XML")] k = some v → lookup env k = some v) ∧
        (lookup [("corpusName", PyVal.str "childes"),
            ("respType", PyVal.str "XML")] k = Option.none →
          lookup env k = some (PyVal.dict [])) :=
  makeQuery_defaults [("corpusName", PyVal.str "childes"),
    ("respType", PyVal.str "XML")] (PyVal.str "childes") rfl

/-- Claim C4: without `corpusName` a data query raises the key-lookup
failure while building the envelope — the `Except.error` result, which by
construction of `makeReq` carries no `HttpPost`, so no request goes out —
and with `corpusName` present envelope construction does not raise. -/
theorem makeReq_missingCorpusName (qp : Dict) (route : String) :
    (lookup qp "corpusName" = Option.none →
      makeReq qp route true = Except.error "KeyError: corpusName")
    ∧ (∀ c, lookup qp "corpusName" = some c →
        ∃ post, makeReq qp route true = Except.ok post) := by
  constructor
  · intro h
    simp [makeReq, makeQuery, h]
  · intro c h
    refine ⟨⟨baseURL ++ route, PyVal.dict [("queryVals", PyVal.dict
      (baseQuery qp c ++
        (match lookup qp "nsAuth" with
         | some a => [("nsAuth", a)]
         | Option.none => [])))]⟩, ?_⟩
    simp [makeReq, makeQuery_eq_ok qp c h]

/-- Witness for C4: a mapping without `corpusName` errors out before any
post; one with `corpusName` yields a post. -/
theorem makeReq_missingCorpusName_witness :
    (makeReq [("lang", PyVal.list [PyVal.str "eng"])] "getTranscriptSummary" true
       = Except.error "KeyError: corpusName")
    ∧ ∃ post, makeReq [("corpusName", PyVal.str "childes")] "cql" true
        = Except.ok post :=
  ⟨(makeReq_missingCorpusName [("lang", PyVal.list [PyVal.str "eng"])]
      "getTranscriptSummary").1 rfl,
   (makeReq_missingCorpusName [("corpusName", PyVal.str "childes")] "cql").2
      (PyVal.str "childes") rfl⟩

/-- Claim C5: normalization is idempotent — feeding a normalized envelope
back through `makeQuery` returns that envelope unchanged (normalization is
a pure function of the input mapping and the fixed defaults). -/
theorem makeQuery_idempotent (qp env : Dict)
    (h : makeQuery qp = Except.ok env) :
    makeQuery env = Except.ok env := by
  cases hc : lookup qp "corpusName" with
  | none => simp [makeQuery, hc] at h
  | some c =>
      cases hns : lookup qp "nsAuth" with
      | none =>
          simp only [makeQuery, hc, hns, Except.ok.injEq] at h
          subst h
          have hc' := lookup_baseQuery_corpusName qp c
          have hns' := lookup_baseQuery_nsAuth qp c
          have hstable : baseQuery (baseQuery qp c) c = baseQuery qp c :=
            baseQuery_stable qp (baseQuery qp c) c (lookup_baseQuery_optional qp c)
          simp only [makeQuery, hc', hns', hstable]
      | some a =>
          simp only [makeQuery, hc, hns, Except.ok.injEq] at h
          subst h
          have hc' : lookup (baseQuery qp c ++ [("nsAuth", a)]) "corpusName"
              = some c :=
            lookup_append_left _ _ _ _ (lookup_baseQuery_corpusName qp c)
          have hns' : lookup (baseQuery qp c ++ [("nsAuth", a)]) "nsAuth"
              = some a := by
            rw [lookup_append, lookup_baseQuery_nsAuth]
            rfl
          have hstable : baseQuery (baseQuery qp c ++ [("nsAuth", a)]) c
              = baseQuery qp c :=
            baseQuery_stable qp _ c (fun k hk =>
              lookup_append_left _ _ _ _ (lookup_baseQuery_optional qp c k hk))
          simp only [makeQuery, hc', hns', hstable]

/-- Witness for C5: the envelope normalized from a minimal mapping
re-normalizes to itself. -/
theorem makeQuery_idempotent_witness :
    makeQuery (baseQuery [("corpusName", PyVal.str "childes")]
        (PyVal.str "childes"))
      = Except.ok (baseQuery [("corpusName", PyVal.str "childes")]
          (PyVal.str "childes")) :=
  makeQuery_idempotent [("corpusName", PyVal.str "childes")] _ rfl

/-- Counterexample to C6: with continuation answers "y", "y", "n" the
collector has already appended a record before each continuation prompt,
so it returns THREE records, not two. -/
theorem authenticate_twoYes_counterexample :
    authenticate ["p1", "u1", "w1", "y", "p2", "u2", "w2", "y",
        "p3", "u3", "w3", "n"]
      = AuthResult.returns
          [credRecord "p1" "u1" "w1", credRecord "p2" "u2" "w2",
           credRecord "p3" "u3" "w3"]
    ∧ [credRecord "p1" "u1" "w1", credRecord "p2" "u2" "w2",
       credRecord "p3" "u3" "w3"].length = 3 :=
  ⟨rfl, rfl⟩

/-- Claim C6 as amended: run with continuation answers "y", "y", "n" the
collector returns exactly THREE Credential Records, in input order (one
record is collected before each continuation prompt, so n affirmative
answers yield n + 1 records). -/
theorem authenticate_twoYes_threeRecords
    (p1 u1 w1 p2 u2 w2 p3 u3 w3 : String) :
    authenticate [p1, u1, w1, "y", p2, u2, w2, "y", p3, u3, w3, "n"]
      = AuthResult.returns
          [credRecord p1 u1 w1, credRecord p2 u2 w2, credRecord p3 u3 w3] :=
  rfl

/-- Claim C7 (code bug): on the affirmative answer "Y" the in-loop check
`another.lower() != 'y'` does not return, but the `while another == 'y'`
test then fails, so the function falls off its end and returns `None`
instead of continuing the loop — contradicting its own case-insensitive
check and `(Y/N)` prompt. -/
theorem authenticate_uppercaseY_returnsNone :
    authenticate ["p", "u", "w", "Y"] = AuthResult.returnsNone :=
  rfl

/-- Counterexample to C8: the record appended by `_authenticate` keys the
secret under "pswd", not "password". -/
theorem credRecord_passwordKey_counterexample :
    authenticate ["p", "u", "w", "n"]
      = AuthResult.returns [credRecord "p" "u" "w"]
    ∧ lookup (credRecord "p" "u" "w") "password" = Option.none
    ∧ lookup (credRecord "p" "u" "w") "pswd" = some (PyVal.str "w") :=
  ⟨rfl, rfl, rfl⟩

/-- Claim C8 as amended: every Credential Record the collector returns is
a mapping with exactly the keys "path", "userID" and "pswd" (in that
order), holding the three interactively collected values. -/
theorem authenticate_recordShape (inputs : List String) (recs : List Dict)
    (h : authenticate inputs = AuthResult.returns recs) :
    ∀ r ∈ recs, (∃ p u w, r = credRecord p u w)
      ∧ r.map Prod.fst = ["path", "userID", "pswd"] := by
  intro r hr
  obtain ⟨p, u, w, rfl⟩ :=
    authLoop_records inputs [] recs (by simp) h r hr
  exact ⟨⟨p, u, w, rfl⟩, rfl⟩

/-- Witness for C8: the single record of a one-iteration run. -/
theorem authenticate_recordShape_witness :
    (∃ p u w, credRecord "p" "u" "w" = credRecord p u w)
    ∧ (credRecord "p" "u" "w").map Prod.fst = ["path", "userID", "pswd"] :=
  authenticate_recordShape ["p", "u", "w", "n"] [credRecord "p" "u" "w"] rfl
    (credRecord "p" "u" "w") (List.mem_singleton.2 rfl)

/-- Claim C9: the envelope's key set is exactly the twelve fixed keys,
plus "nsAuth" exactly when the caller supplied it; any other caller key is
absent from the envelope (looked up, it is `None`), hence never
transmitted. -/
theorem makeQuery_keySet (qp env : Dict)
    (h : makeQuery qp = Except.ok env) :
    env.map Prod.fst =
      ["corpusName", "corpora", "lang", "media", "age", "gender", "designType",
       "activityType", "groupType", "cqlArr", "nGram", "respType"]
        ++ (if hasKey qp "nsAuth" then ["nsAuth"] else [])
    ∧ ∀ k, k ∉ env.map Prod.fst → lookup env k = Option.none := by
  refine ⟨?_, fun k hk => (lookup_eq_none env k).2 hk⟩
  cases hc : lookup qp "corpusName" with
  | none => simp [makeQuery, hc] at h
  | some c =>
      cases hns : lookup qp "nsAuth" with
      | none =>
          simp only [makeQuery, hc, hns, Except.ok.injEq] at h
          subst h
          simp [map_fst_baseQuery, hasKey, hns]
      | some a =>
          simp only [makeQuery, hc, hns, Except.ok.injEq] at h
          subst h
          simp [map_fst_baseQuery, hasKey, hns]

/-- Witness for C9: a caller-supplied "junk" key is dropped from the
envelope. -/
theorem makeQuery_keySet_witness :
    (baseQuery [("corpusName", PyVal.str "childes"), ("junk", PyVal.int 1)]
        (PyVal.str "childes")).map Prod.fst =
      ["corpusName", "corpora", "lang", "media", "age", "gender", "designType",
       "activityType", "groupType", "cqlArr", "nGram", "respType"]
        ++ (if hasKey [("corpusName", PyVal.str "childes"),
              ("junk", PyVal.int 1)] "nsAuth" then ["nsAuth"] else [])
    ∧ ∀ k, k ∉ (baseQuery [("corpusName", PyVal.str "childes"),
        ("junk", PyVal.int 1)] (PyVal.str "childes")).map Prod.fst →
        lookup (baseQuery [("corpusName", PyVal.str "childes"),
          ("junk", PyVal.int 1)] (PyVal.str "childes")) k = Option.none :=
  makeQuery_keySet [("corpusName", PyVal.str "childes"), ("junk", PyVal.int 1)]
    (baseQuery [("corpusName", PyVal.str "childes"), ("junk", PyVal.int 1)]
      (PyVal.str "childes")) rfl

/-- Claim C10: with auth set, `getTranscripts` and `getCQL` store the
collected credentials under "nsAuth" in the caller's own mapping (the
post-call state of that mapping, made explicit here, holds them, every
other key unchanged); with auth unset the caller's mapping is returned
untouched. -/
theorem queryFns_mutate_nsAuth (qp : Dict) (creds : PyVal) :
    (lookup (getTranscripts qp true creds).1 "nsAuth" = some creds
      ∧ (∀ k, k ≠ "nsAuth" →
          lookup (getTranscripts qp true creds).1 k = lookup qp k)
      ∧ (getTranscripts qp false creds).1 = qp)
    ∧ (lookup (getCQL qp true creds).1 "nsAuth" = some creds
      ∧ (∀ k, k ≠ "nsAuth" →
          lookup (getCQL qp true creds).1 k = lookup qp k)
      ∧ (getCQL qp false creds).1 = qp) :=
  ⟨⟨lookup_dictSet_self qp "nsAuth" creds,
    fun k hk => lookup_dictSet_ne qp "nsAuth" k creds hk, rfl⟩,
   ⟨lookup_dictSet_self qp "nsAuth" creds,
    fun k hk => lookup_dictSet_ne qp "nsAuth" k creds hk, rfl⟩⟩

end TBDB
